import Mathlib

/-!
Shallow embedding of the Maliev.GeometryService analysis pipeline.

The embedding follows the two core modules:
* `src/core/geometry.py` — `GeometryProcessor.analyze_stream` / `analyze_async`
  (mesh loading dispatch, CAD tessellation, metric extraction, error wrapping);
* `src/consumers/upload_consumer.py` — `UploadConsumer.process_message`,
  `download_with_retry`, `publish_failure` (download retry with backoff, size
  enforcement, error classification, event publication).

External libraries (trimesh, gmsh, the AMQP broker, the HTTP client) are
modelled as abstract behaviours supplied as inputs: a download attempt either
yields a byte buffer or raises, `trimesh.load` yields a scene/mesh/other value
or raises, the gmsh tessellation either fails, yields elements, or yields an
empty element list.  Python floats are modelled as exact rationals (the claims
under study concern control flow, sign and simple arithmetic, not rounding).
Python exceptions are modelled as a pair of an `isValueError` flag (the only
type distinction `process_message` makes) and the `str(e)` message.
-/

namespace GeometryService

/-- Python `str.lower()` (ASCII case folding, which is all the code relies on). -/
def strToLower (s : String) : String := String.mk (s.data.map Char.toLower)

/-- Python `str.strip(".")`: remove leading and trailing `'.'` characters. -/
def stripDots (s : String) : String :=
  String.mk (((s.data.dropWhile (fun c => c = '.')).reverse.dropWhile
    (fun c => c = '.')).reverse)

/-- The final path component of `s` (the part after the last `'/'`). -/
def lastComponent (s : String) : List Char :=
  (s.data.reverse.takeWhile (fun c => c ≠ '/')).reverse

/-- Python `pathlib.Path(s).suffix`: the extension of the final component,
including the leading dot; `""` when the last dot is absent, leading, or
trailing (CPython: `0 < name.rfind('.') < len(name) - 1`). -/
def pathSuffixOf (s : String) : String :=
  let name := lastComponent s
  let revTail := name.reverse.takeWhile (fun c => c ≠ '.')
  if revTail.length = name.length then ""
  else if revTail.length = 0 then ""
  else if name.length = revTail.length + 1 then ""
  else String.mk ('.' :: revTail.reverse)

/-- Python `pat in s` on strings (contiguous substring test). -/
def strContains (s pat : String) : Bool := decide (pat.data <:+: s.data)

/-- A Python exception as `process_message` observes it: whether it is a
`ValueError` (the only `except` type distinction made) and its `str(e)`. -/
structure PyErr where
  isValueError : Bool
  msg : String
  deriving DecidableEq

/-- `ValueError(m)`. -/
def valueError (m : String) : PyErr := ⟨true, m⟩

/-! ### `src/core/geometry.py` -/

/-- `BoundingBox` (pydantic model in `geometry.py`). -/
structure BoundingBox where
  x : ℚ
  y : ℚ
  z : ℚ
  deriving DecidableEq

/-- `GeometryMetrics` (pydantic model in `geometry.py`). -/
structure GeometryMetrics where
  volume_cm3 : ℚ
  support_volume_cm3 : ℚ
  surface_area_cm2 : ℚ
  bounding_box : BoundingBox
  is_manifold : Bool
  triangle_count : ℕ
  euler_number : ℤ
  deriving DecidableEq

/-- Abstraction of a `trimesh.Trimesh` value: the observations
`analyze_stream` makes of it.  `convex_hull` is `some (volume, area)` of
`mesh.convex_hull` when hull construction succeeds and `none` when it raises;
`extents` is `none` when `mesh.extents` is `None`; `area` is trimesh's raw
triangle-area sum; `faces` is `len(mesh.faces)`. -/
structure TrimeshData where
  is_watertight : Bool
  volume : ℚ
  area : ℚ
  convex_hull : Option (ℚ × ℚ)
  extents : Option (ℚ × ℚ × ℚ)
  euler_number : ℤ
  faces : ℕ
  deriving DecidableEq

/-- Behaviour of the gmsh tessellation steps for one input (CAD branch of
`analyze_stream`): either some step raises, or `getElements` returns a
non-empty `node_tags` from which a `Trimesh` is built, or it returns an empty
element list. -/
inductive GmshOutcome where
  | fail (e : PyErr)
  | elements (m : TrimeshData)
  | noElements
  deriving DecidableEq

/-- Behaviour of `trimesh.load(file_stream, file_type=ext, force="mesh")` for
one input: it raises, returns a `trimesh.Scene` with the given geometry
bodies, returns a `trimesh.Trimesh`, or returns something that is neither
(which the subsequent `isinstance` check rejects). -/
inductive LoadResult where
  | raiseErr (e : PyErr)
  | scene (bodies : List TrimeshData)
  | mesh (m : TrimeshData)
  | notMesh
  deriving DecidableEq

/-- The four boundary-representation CAD extensions dispatched to gmsh. -/
def cadExts : List String := ["igs", "iges", "step", "stp"]

/-- Mesh acquisition inside `analyze_stream`'s outer `try` (lines 48–93):
CAD extensions go through gmsh (any failure in that block, including the
`GMSH_TESSELLATION_FAILED` raise for an empty element list, is wrapped as
`ValueError("CAD_LOAD_ERROR: {ext} ({cause})")`); other extensions go through
`trimesh.load` with the scene multi-body / empty checks; a loaded object that
is not a `Trimesh` raises `ValueError("FILE_CORRUPT")`. -/
def loadMesh (ext : String) (gm : GmshOutcome) (ld : LoadResult) :
    Except PyErr TrimeshData :=
  if cadExts.contains ext then
    match gm with
    | .elements m => .ok m
    | .noElements =>
        .error (valueError ("CAD_LOAD_ERROR: " ++ ext ++ " (GMSH_TESSELLATION_FAILED)"))
    | .fail e =>
        .error (valueError ("CAD_LOAD_ERROR: " ++ ext ++ " (" ++ e.msg ++ ")"))
  else
    match ld with
    | .raiseErr e => .error e
    | .scene bodies =>
        if bodies.length > 1 then .error (valueError "MULTI_BODY_ERROR")
        else
          match bodies with
          | [] => .error (valueError "EMPTY_FILE_ERROR")
          | m :: _ => .ok m
    | .mesh m => .ok m
    | .notMesh => .error (valueError "FILE_CORRUPT")

/-- Metric extraction from a loaded mesh (`analyze_stream` lines 95–134):
watertight meshes use the mesh's own volume/area; non-watertight ones fall
back to the convex hull, and on hull failure to volume `0.0` with the raw
triangle-area sum; missing extents give a `(0,0,0)` bounding box with
bounding-box volume `0`; support volume is
`max(0, bbox_x*bbox_y*bbox_z − volume_mm3)`; mm³→cm³ divides by 1000,
mm²→cm² by 100. -/
def computeMetrics (m : TrimeshData) : GeometryMetrics :=
  let is_manifold := m.is_watertight
  let va : ℚ × ℚ :=
    if is_manifold then (m.volume, m.area)
    else
      match m.convex_hull with
      | some (hv, ha) => (hv, ha)
      | none => (0, m.area)
  let volume_mm3 := va.1
  let area_mm2 := va.2
  let bb : BoundingBox × ℚ :=
    match m.extents with
    | none => (⟨0, 0, 0⟩, 0)
    | some (x, y, z) => (⟨x, y, z⟩, x * y * z)
  let support_mm3 := max 0 (bb.2 - volume_mm3)
  { volume_cm3 := volume_mm3 / 1000
    support_volume_cm3 := support_mm3 / 1000
    surface_area_cm2 := area_mm2 / 100
    bounding_box := bb.1
    is_manifold := is_manifold
    triangle_count := m.faces
    euler_number := m.euler_number }

/-- `GeometryProcessor.analyze_stream`: normalise the extension
(`strip(".").lower()`), acquire the mesh, compute metrics; the outer
`except Exception` re-raises any error whose message contains
`MULTI_BODY_ERROR` unchanged and wraps every other error as
`ValueError("FILE_CORRUPT: {str(e)}")`. -/
def analyze_stream (file_extension : String) (gm : GmshOutcome)
    (ld : LoadResult) : Except PyErr GeometryMetrics :=
  let ext := strToLower (stripDots file_extension)
  match loadMesh ext gm ld with
  | .ok m => .ok (computeMetrics m)
  | .error e =>
      if strContains e.msg "MULTI_BODY_ERROR" then .error e
      else .error (valueError ("FILE_CORRUPT: " ++ e.msg))

/-- `GeometryProcessor.analyze_async`: runs `analyze_stream` on an executor;
results and exceptions propagate unchanged. -/
def analyze_async (file_extension : String) (gm : GmshOutcome)
    (ld : LoadResult) : Except PyErr GeometryMetrics :=
  analyze_stream file_extension gm ld

/-! ### `src/core/config.py` -/

/-- The configuration fields of `Settings` that the pipeline reads
(`config.py`; the remaining fields configure external collaborators). -/
structure Settings where
  MAX_FILE_SIZE_MB : ℕ := 200

/-- `settings = Settings()` with environment defaults. -/
def settings : Settings := {}

/-! ### `src/core/schemas.py` / `src/consumers/upload_consumer.py` -/

/-- `UploadCompletedMessage` — the fields `process_message` reads.  Optional
fields (`fileId`, `downloadUrl`) default to `None`. -/
structure UploadCompletedMessage where
  upload_id : String
  file_id : Option String := none
  storage_path : String
  download_url : Option String := none
  deriving DecidableEq

/-- `FileUploadedEvent` — the envelope fields `process_message` reads
(`correlationId` is optional in `MassTransitEnvelope`). -/
structure FileUploadedEvent where
  correlation_id : Option String := none
  message : UploadCompletedMessage
  deriving DecidableEq

/-- Result of `json.loads(message.body.decode())` followed by
`FileUploadedEvent.model_validate(body)`: the body is not valid JSON
(`json.JSONDecodeError`, a `ValueError` subclass), or is JSON but not a valid
envelope (`pydantic.ValidationError`, also a `ValueError` subclass), or
yields a validated event. -/
inductive ParsedBody where
  | invalidJson
  | invalidEnvelope
  | valid (event : FileUploadedEvent)
  deriving DecidableEq

/-- Python truthiness of `inner_msg.file_id or inner_msg.upload_id`:
the `fileId` when present and non-empty, else the `uploadId`. -/
def pyOrStr (a : Option String) (b : String) : String :=
  match a with
  | none => b
  | some s => if s = "" then b else s

/-- Python falsiness of an optional string (`if not inner_msg.download_url`). -/
def pyFalsy (a : Option String) : Bool :=
  match a with
  | none => true
  | some s => s = ""

/-- One downloaded file stream, bundling what later stages observe of it:
its byte length (`seek(0, SEEK_END)`/`tell()`) and the behaviour of the
geometry backends on its contents. -/
structure FileContent where
  size_bytes : ℕ
  gmsh : GmshOutcome
  load : LoadResult
  deriving DecidableEq

/-- Behaviour of one `storage_service.download_file(url)` call: it returns a
stream or raises. -/
inductive DlAttempt where
  | ok (c : FileContent)
  | fail (e : PyErr)
  deriving DecidableEq

/-- The loop body of `download_with_retry` (`for i in range(attempts)`):
`remaining` iterations are left and `i` is the current index.  A successful
attempt returns the stream; a failed final attempt (`i == attempts - 1`)
re-raises; otherwise the loop sleeps `2 ** (i + 1)` seconds and retries.  The
second component records the sleeps performed, in order.  Exhausting the loop
returns `None`. -/
def downloadLoop (att : ℕ → DlAttempt) (attempts : ℕ) :
    ℕ → ℕ → Except PyErr (Option FileContent) × List ℕ
  | 0, _ => (.ok none, [])
  | remaining + 1, i =>
      match att i with
      | .ok c => (.ok (some c), [])
      | .fail e =>
          if i = attempts - 1 then (.error e, [])
          else
            let r := downloadLoop att attempts remaining (i + 1)
            (r.1, 2 ^ (i + 1) :: r.2)

/-- `UploadConsumer.download_with_retry(url, attempts=3)`, with the download
behaviour `att` standing for the successive `download_file` calls. -/
def download_with_retry (att : ℕ → DlAttempt) (attempts : ℕ) :
    Except PyErr (Option FileContent) × List ℕ :=
  downloadLoop att attempts attempts 0

/-- An outbound event as `publish_event` receives it: the routing key is
determined by the constructor (success → `…analysis.completed`, failure →
`…analysis.failed`); both carry the envelope `correlationId` and the payload
`fileId`; a failure carries `errorCode` and `details`. -/
inductive Published where
  | success (correlationId : Option String) (fileId : String)
      (metrics : GeometryMetrics)
  | failure (correlationId : Option String) (fileId : String)
      (errorCode : String) (details : String)
  deriving DecidableEq

/-- Outcome of one `process_message` call: it returns normally having
published `events`, or an exception `e` escapes it after publishing
`events`. -/
inductive HandlerResult where
  | done (events : List Published)
  | escaped (events : List Published) (e : PyErr)
  deriving DecidableEq

/-- The `try` block of `process_message` after a successful parse (lines
89–135): the `MISSING_DOWNLOAD_URL` guard, the retried download, the
`RuntimeError` on a `None` stream, the size check
(`tell() / (1024*1024) > settings.MAX_FILE_SIZE_MB`), extension extraction
from `storagePath`, geometry analysis, and construction of the success
event. -/
def tryBlock (cfg : ℕ) (event : FileUploadedEvent) (att : ℕ → DlAttempt) :
    Except PyErr Published :=
  let msg := event.message
  let file_id := pyOrStr msg.file_id msg.upload_id
  if pyFalsy msg.download_url then .error (valueError "MISSING_DOWNLOAD_URL")
  else
    match (download_with_retry att 3).1 with
    | .error e => .error e
    | .ok none => .error ⟨false, "Failed to download file"⟩
    | .ok (some content) =>
        if ((content.size_bytes : ℚ) / (1024 * 1024) : ℚ) > (cfg : ℚ) then
          .error (valueError "SIZE_LIMIT_EXCEEDED")
        else
          let file_ext := strToLower (pathSuffixOf msg.storage_path)
          match analyze_async file_ext content.gmsh content.load with
          | .error e => .error e
          | .ok metrics => .ok (.success event.correlation_id file_id metrics)

/-- The `except ValueError` classifier (lines 137–144): keep
`MULTI_BODY_ERROR` and `SIZE_LIMIT_EXCEEDED` when the message contains them,
otherwise normalise to `FILE_CORRUPT`. -/
def classifyValueError (m : String) : String :=
  if strContains m "MULTI_BODY_ERROR" then "MULTI_BODY_ERROR"
  else if strContains m "SIZE_LIMIT_EXCEEDED" then "SIZE_LIMIT_EXCEEDED"
  else "FILE_CORRUPT"

/-- The `UnboundLocalError` raised when an `except` handler dereferences the
local `event` (or `file_id`) after the `try` block failed before binding it. -/
def unboundLocalError : PyErr :=
  ⟨false, "cannot access local variable 'event' where it is not associated with a value"⟩

/-- The `except` handlers of `process_message` (lines 137–153).  Both handlers
read `event.correlation_id` and `file_id`; when the `try` block failed before
those locals were bound (i.e. during parsing/validation), that read raises
`UnboundLocalError`, which escapes `process_message` with nothing published.
Otherwise a `ValueError` is classified and published via `publish_failure`,
and any other exception is published as `SYSTEM_ERROR`. -/
def handleError (bound : Option FileUploadedEvent) (e : PyErr) : HandlerResult :=
  match bound with
  | none => .escaped [] unboundLocalError
  | some event =>
      let file_id := pyOrStr event.message.file_id event.message.upload_id
      if e.isValueError then
        .done [.failure event.correlation_id file_id (classifyValueError e.msg) e.msg]
      else
        .done [.failure event.correlation_id file_id "SYSTEM_ERROR" e.msg]

/-- `UploadConsumer.process_message`: parse the body, run the `try` block,
and on error run the `except` handlers (with the locals `event`/`file_id`
bound only if parsing succeeded).  Parse failures are `ValueError`s, so both
land in the handler with the locals unbound. -/
def process_message (cfg : ℕ) (body : ParsedBody) (att : ℕ → DlAttempt) :
    HandlerResult :=
  match body with
  | .invalidJson => handleError none (valueError "Expecting value: line 1 column 1 (char 0)")
  | .invalidEnvelope => handleError none (valueError "validation error for FileUploadedEvent")
  | .valid event =>
      match tryBlock cfg event att with
      | .ok ev => .done [ev]
      | .error e => handleError (some event) e

/-- The `fileId` field of an outbound event payload. -/
def Published.fileIdOf : Published → String
  | .success _ f _ => f
  | .failure _ f _ _ => f

/-! ### Concrete fixtures (inputs used to exercise the model) -/

/-- A transport-level download failure (`httpx` errors are not `ValueError`s). -/
def errConn : PyErr := ⟨false, "Connection refused"⟩

/-- A 10×10×10 mm cube as trimesh reports it. -/
def cubeMesh : TrimeshData :=
  { is_watertight := true, volume := 1000, area := 600,
    convex_hull := some (1000, 600), extents := some (10, 10, 10),
    euler_number := 2, faces := 12 }

/-- A non-watertight mesh whose convex hull succeeds. -/
def brokenMesh : TrimeshData :=
  { is_watertight := false, volume := 37, area := 55,
    convex_hull := some (42, 60), extents := some (5, 5, 5),
    euler_number := 1, faces := 7 }

/-- A non-watertight mesh whose convex-hull construction raises. -/
def brokenMeshNoHull : TrimeshData :=
  { is_watertight := false, volume := 37, area := 55,
    convex_hull := none, extents := some (5, 5, 5),
    euler_number := 1, faces := 7 }

/-- A small (1 KiB) downloaded file that loads as a single cube mesh. -/
def smallContent : FileContent :=
  { size_bytes := 1024, gmsh := .noElements, load := .mesh cubeMesh }

/-- A 300 MiB downloaded file (over the 200 MB default limit). -/
def bigContent : FileContent :=
  { size_bytes := 300 * 1048576, gmsh := .noElements, load := .mesh cubeMesh }

/-- A valid inbound envelope for an STL upload. -/
def envStl : FileUploadedEvent :=
  { correlation_id := some "corr-1",
    message := { upload_id := "u-1", file_id := some "f-1",
                 storage_path := "inbox/part.stl",
                 download_url := some "https://signed-url" } }

/-- A valid inbound envelope for a STEP upload. -/
def envStep : FileUploadedEvent :=
  { correlation_id := some "corr-1",
    message := { upload_id := "u-1", file_id := some "f-1",
                 storage_path := "inbox/part.step",
                 download_url := some "https://signed-url" } }

/-- A valid inbound envelope with no `downloadUrl` and no `fileId`. -/
def envNoUrl : FileUploadedEvent :=
  { correlation_id := some "corr-2",
    message := { upload_id := "u-2", file_id := none,
                 storage_path := "inbox/part.stl", download_url := none } }

/-- A download behaviour that succeeds immediately with `c`. -/
def attOk (c : FileContent) : ℕ → DlAttempt := fun _ => .ok c

/-- A download behaviour that fails every attempt. -/
def attFail : ℕ → DlAttempt := fun _ => .fail errConn

/-- A download behaviour that fails twice, then succeeds with `c`. -/
def attFFS (c : FileContent) : ℕ → DlAttempt :=
  fun i => if i < 2 then .fail errConn else .ok c

/-! ### Helper lemmas about substring containment -/

/-- An infix of `a :: l` starts at the head or lies within `l`. -/
theorem infix_split {pat l : List Char} {a : Char} (h : pat <:+: a :: l) :
    pat <+: a :: l ∨ pat <:+: l := by
  obtain ⟨s, t, hst⟩ := h
  cases s with
  | nil => exact Or.inl ⟨t, by simpa using hst⟩
  | cons b s' =>
      right
      rw [List.cons_append, List.cons_append] at hst
      injection hst with h1 h2
      exact ⟨s', t, by simpa using h2⟩

/-- A nonempty initial segment pins down the head. -/
theorem head_eq_of_startsWith {c a : Char} {rest l : List Char}
    (h : (c :: rest) <+: a :: l) : c = a := by
  obtain ⟨t, ht⟩ := h
  simpa using congrArg List.head? ht

/-- Reversal maps infixes to infixes. -/
theorem infix_rev {l₁ l₂ : List Char} (h : l₁ <:+: l₂) :
    l₁.reverse <:+: l₂.reverse := by
  obtain ⟨s, t, hst⟩ := h
  exact ⟨t.reverse, s.reverse, by rw [← hst]; simp⟩

theorem infix_rev_iff {l₁ l₂ : List Char} :
    l₁.reverse <:+: l₂.reverse ↔ l₁ <:+: l₂ :=
  ⟨fun h => by simpa using infix_rev h, infix_rev⟩

/-- A pattern whose head does not occur in `p` and that is not contained in
`m` is not contained in `p ++ m`. -/
theorem not_infix_append {c : Char} {rest : List Char} :
    ∀ (p m : List Char), c ∉ p → ¬ (c :: rest) <:+: m →
      ¬ (c :: rest) <:+: (p ++ m) := by
  intro p
  induction p with
  | nil => intro m _ hm; simpa using hm
  | cons a p ih =>
      intro m hp hm hinf
      have h2 : (c :: rest) <:+: a :: (p ++ m) := by simpa using hinf
      rcases infix_split h2 with hpre | hrest
      · exact hp (by rw [head_eq_of_startsWith hpre]; exact List.mem_cons_self a p)
      · exact ih m (fun hc => hp (List.mem_cons_of_mem a hc)) hm hrest

/-- A pattern whose last character is not `post` and that is not contained in
`m` is not contained in `m ++ [post]`. -/
theorem not_infix_snoc {c d : Char} {rest restR : List Char} {post : Char}
    (hrev : (c :: rest).reverse = d :: restR) (hd : d ≠ post)
    {m : List Char} (hm : ¬ (c :: rest) <:+: m) :
    ¬ (c :: rest) <:+: (m ++ [post]) := by
  intro h
  have h2 := infix_rev h
  rw [hrev] at h2
  have h3 : (d :: restR) <:+: (post :: m.reverse) := by simpa using h2
  rcases infix_split h3 with hpre2 | hrest2
  · exact hd (head_eq_of_startsWith hpre2)
  · rw [← hrev] at hrest2
    exact hm (by simpa using infix_rev_iff.mp hrest2)

/-- Combined form for strings of the shape `p ++ m ++ [post]`. -/
theorem not_infix_wrap {c d : Char} {rest restR : List Char}
    (hrev : (c :: rest).reverse = d :: restR)
    {p : List Char} (hc : c ∉ p) {post : Char} (hd : d ≠ post)
    {m : List Char} (hm : ¬ (c :: rest) <:+: m) :
    ¬ (c :: rest) <:+: (p ++ (m ++ [post])) :=
  not_infix_append p (m ++ [post]) hc (not_infix_snoc hrev hd hm)

/-- Chained form: a pattern avoiding every segment head-wise and absent from
`m`, whose last character is not `post`, is absent from
`p₀ ++ (p₁ ++ (… ++ (m ++ [post])))`. -/
theorem not_infix_concat {c d : Char} {rest restR : List Char}
    (hrev : (c :: rest).reverse = d :: restR) :
    ∀ (ps : List (List Char)) (m : List Char) (post : Char),
      (∀ p ∈ ps, c ∉ p) → d ≠ post → ¬ (c :: rest) <:+: m →
      ¬ (c :: rest) <:+: (ps.foldr (fun p acc => p ++ acc) (m ++ [post])) := by
  intro ps
  induction ps with
  | nil =>
      intro m post _ hd hm
      exact not_infix_snoc hrev hd hm
  | cons p ps ih =>
      intro m post hps hd hm
      exact not_infix_append _ _ (hps p (by simp))
        (ih m post (fun q hq => hps q (by simp [hq])) hd hm)

theorem strContains_false_iff {s pat : String} :
    strContains s pat = false ↔ ¬ pat.data <:+: s.data := by
  simp [strContains]

theorem strContains_true_iff {s pat : String} :
    strContains s pat = true ↔ pat.data <:+: s.data := by
  simp [strContains]

theorem string_data_append (a b : String) : (a ++ b).data = a.data ++ b.data := rfl

/-- Containment is preserved by surrounding material. -/
theorem infix_extend {pat m : List Char} (p q : List Char) (h : pat <:+: m) :
    pat <:+: (p ++ m ++ q) := by
  obtain ⟨s, t, hst⟩ := h
  exact ⟨p ++ s, t ++ q, by rw [← hst]; simp⟩

/-! ### Trace lemmas for the pipeline -/

/-- A successful `analyze_stream` run computed its metrics from some loaded
mesh. -/
theorem analyze_stream_ok {ext : String} {gm : GmshOutcome} {ld : LoadResult}
    {metrics : GeometryMetrics}
    (h : analyze_stream ext gm ld = .ok metrics) :
    ∃ m, loadMesh (strToLower (stripDots ext)) gm ld = .ok m ∧
      metrics = computeMetrics m := by
  simp only [analyze_stream] at h
  cases hl : loadMesh (strToLower (stripDots ext)) gm ld with
  | ok m =>
      rw [hl] at h
      simp only [Except.ok.injEq] at h
      exact ⟨m, rfl, h.symm⟩
  | error e =>
      rw [hl] at h
      split at h
      next _ heq => exact absurd heq (by simp)
      next _ heq => split at h <;> exact absurd h (by simp)

/-- A successful `tryBlock` run produced exactly the success event for the
envelope's correlation id, the computed file id and metrics computed from
some loaded mesh. -/
theorem tryBlock_ok {cfg : ℕ} {event : FileUploadedEvent}
    {att : ℕ → DlAttempt} {p : Published}
    (h : tryBlock cfg event att = .ok p) :
    ∃ m, p = .success event.correlation_id
      (pyOrStr event.message.file_id event.message.upload_id)
      (computeMetrics m) := by
  simp only [tryBlock] at h
  split at h
  · exact absurd h (by simp)
  · split at h
    · exact absurd h (by simp)
    · exact absurd h (by simp)
    · split at h
      · exact absurd h (by simp)
      · split at h
        · exact absurd h (by simp)
        next metrics hana =>
          obtain ⟨m, _, hm⟩ := analyze_stream_ok (by exact hana)
          simp only [Except.ok.injEq] at h
          exact ⟨m, by rw [← h, hm]⟩

/-- The support-volume field of any computed metrics satisfies the
bounding-box formula, expressed over the reported fields. -/
theorem computeMetrics_support (m : TrimeshData) :
    (computeMetrics m).support_volume_cm3
      = max 0 ((computeMetrics m).bounding_box.x * (computeMetrics m).bounding_box.y
          * (computeMetrics m).bounding_box.z
          - 1000 * (computeMetrics m).volume_cm3) / 1000 := by
  have hc : (1000 : ℚ) ≠ 0 := by norm_num
  unfold computeMetrics
  rcases m.extents with _ | ⟨x, y, z⟩ <;>
    simp [mul_div_assoc', mul_div_cancel_left₀ _ hc]

/-- The support-volume field is never negative. -/
theorem computeMetrics_support_nonneg (m : TrimeshData) :
    0 ≤ (computeMetrics m).support_volume_cm3 := by
  unfold computeMetrics
  rcases m.extents with _ | ⟨x, y, z⟩ <;>
    exact div_nonneg (le_max_left 0 _) (by norm_num)

/-- A degenerate mesh (no extents) reports a zero bounding box. -/
theorem computeMetrics_no_extents (m : TrimeshData) (h : m.extents = none) :
    (computeMetrics m).bounding_box = ⟨0, 0, 0⟩ := by
  unfold computeMetrics
  rw [h]

/-- Path lemma: a missing/empty download reference short-circuits to the
`except` handlers with `ValueError("MISSING_DOWNLOAD_URL")`. -/
theorem process_no_url {cfg : ℕ} {env : FileUploadedEvent} {att : ℕ → DlAttempt}
    (hurl : pyFalsy env.message.download_url = true) :
    process_message cfg (.valid env) att
      = handleError (some env) (valueError "MISSING_DOWNLOAD_URL") := by
  simp only [process_message, tryBlock, hurl, if_true]

/-- Path lemma: a download that raises out of the retry loop reaches the
`except` handlers with that error. -/
theorem process_dl_err {cfg : ℕ} {env : FileUploadedEvent} {att : ℕ → DlAttempt}
    {e : PyErr} (hurl : pyFalsy env.message.download_url = false)
    (hdl : (download_with_retry att 3).1 = .error e) :
    process_message cfg (.valid env) att = handleError (some env) e := by
  simp only [process_message, tryBlock, hurl, Bool.false_eq_true, if_false, hdl]

/-- Path lemma: an oversized download short-circuits to the `except` handlers
with `ValueError("SIZE_LIMIT_EXCEEDED")`, independently of the stream's
contents. -/
theorem process_size {cfg : ℕ} {env : FileUploadedEvent} {att : ℕ → DlAttempt}
    {c : FileContent} (hurl : pyFalsy env.message.download_url = false)
    (hdl : (download_with_retry att 3).1 = .ok (some c))
    (hsize : ((c.size_bytes : ℚ) / (1024 * 1024) : ℚ) > (cfg : ℚ)) :
    process_message cfg (.valid env) att
      = handleError (some env) (valueError "SIZE_LIMIT_EXCEEDED") := by
  simp only [process_message, tryBlock, hurl, Bool.false_eq_true, if_false, hdl,
    if_pos hsize]

/-- Path lemma: a within-limit download whose analysis succeeds publishes the
success event. -/
theorem process_ok {cfg : ℕ} {env : FileUploadedEvent} {att : ℕ → DlAttempt}
    {c : FileContent} {metrics : GeometryMetrics}
    (hurl : pyFalsy env.message.download_url = false)
    (hdl : (download_with_retry att 3).1 = .ok (some c))
    (hsize : ¬ (((c.size_bytes : ℚ) / (1024 * 1024) : ℚ) > (cfg : ℚ)))
    (hana : analyze_async (strToLower (pathSuffixOf env.message.storage_path))
        c.gmsh c.load = .ok metrics) :
    process_message cfg (.valid env) att
      = .done [.success env.correlation_id
          (pyOrStr env.message.file_id env.message.upload_id) metrics] := by
  simp only [process_message, tryBlock, hurl, Bool.false_eq_true, if_false, hdl,
    if_neg hsize, hana]

/-- Path lemma: a within-limit download whose analysis raises reaches the
`except` handlers with that error. -/
theorem process_ana_err {cfg : ℕ} {env : FileUploadedEvent} {att : ℕ → DlAttempt}
    {c : FileContent} {e : PyErr}
    (hurl : pyFalsy env.message.download_url = false)
    (hdl : (download_with_retry att 3).1 = .ok (some c))
    (hsize : ¬ (((c.size_bytes : ℚ) / (1024 * 1024) : ℚ) > (cfg : ℚ)))
    (hana : analyze_async (strToLower (pathSuffixOf env.message.storage_path))
        c.gmsh c.load = .error e) :
    process_message cfg (.valid env) att = handleError (some env) e := by
  simp only [process_message, tryBlock, hurl, Bool.false_eq_true, if_false, hdl,
    if_neg hsize, hana]

/-- A multi-body scene is rejected with `MULTI_BODY_ERROR`, and the outer
handler re-raises it unchanged. -/
theorem analyze_scene_multi {ext : String} {gm : GmshOutcome}
    {bodies : List TrimeshData}
    (hext : cadExts.contains (strToLower (stripDots ext)) = false)
    (hlen : bodies.length > 1) :
    analyze_stream ext gm (.scene bodies) = .error (valueError "MULTI_BODY_ERROR") := by
  have hmb : strContains "MULTI_BODY_ERROR" "MULTI_BODY_ERROR" = true := by decide
  simp only [analyze_stream, loadMesh, hext, Bool.false_eq_true, if_false,
    if_pos hlen, valueError, hmb, if_true]

/-- An empty scene raises `EMPTY_FILE_ERROR`, which the outer handler wraps
into `FILE_CORRUPT`. -/
theorem analyze_scene_empty {ext : String} {gm : GmshOutcome}
    (hext : cadExts.contains (strToLower (stripDots ext)) = false) :
    analyze_stream ext gm (.scene [])
      = .error (valueError "FILE_CORRUPT: EMPTY_FILE_ERROR") := by
  have hmb : strContains "EMPTY_FILE_ERROR" "MULTI_BODY_ERROR" = false := by decide
  have happ : "FILE_CORRUPT: " ++ "EMPTY_FILE_ERROR" = "FILE_CORRUPT: EMPTY_FILE_ERROR" := by
    decide
  simp only [analyze_stream, loadMesh, hext, Bool.false_eq_true, if_false]
  norm_num [valueError, hmb, happ]

/-- A single-body scene extracts its body and computes the metrics. -/
theorem analyze_scene_single {ext : String} {gm : GmshOutcome} {m : TrimeshData}
    (hext : cadExts.contains (strToLower (stripDots ext)) = false) :
    analyze_stream ext gm (.scene [m]) = .ok (computeMetrics m) := by
  simp only [analyze_stream, loadMesh, hext, Bool.false_eq_true, if_false]
  norm_num

/-- An exception raised by `trimesh.load` whose message carries the
multi-body marker is re-raised unchanged by the outer handler. -/
theorem analyze_raise_preserved {ext : String} {gm : GmshOutcome} {e : PyErr}
    (hext : cadExts.contains (strToLower (stripDots ext)) = false)
    (hm : strContains e.msg "MULTI_BODY_ERROR" = true) :
    analyze_stream ext gm (.raiseErr e) = .error e := by
  simp only [analyze_stream, loadMesh, hext, Bool.false_eq_true, if_false, hm,
    if_true]

/-- Any other exception raised by `trimesh.load` is wrapped into
`ValueError("FILE_CORRUPT: …")`. -/
theorem analyze_raise_wrapped {ext : String} {gm : GmshOutcome} {e : PyErr}
    (hext : cadExts.contains (strToLower (stripDots ext)) = false)
    (hm : strContains e.msg "MULTI_BODY_ERROR" = false) :
    analyze_stream ext gm (.raiseErr e)
      = .error (valueError ("FILE_CORRUPT: " ++ e.msg)) := by
  simp only [analyze_stream, loadMesh, hext, Bool.false_eq_true, if_false, hm]

/-- A gmsh-step failure on a CAD extension wraps into `CAD_LOAD_ERROR` with
the format and cause; with the multi-body marker inside, the outer handler
re-raises it unchanged. -/
theorem analyze_cad_fail_preserved {ext : String} {ld : LoadResult} {e : PyErr}
    (hext : cadExts.contains (strToLower (stripDots ext)) = true)
    (hm : strContains ("CAD_LOAD_ERROR: " ++ strToLower (stripDots ext)
        ++ " (" ++ e.msg ++ ")") "MULTI_BODY_ERROR" = true) :
    analyze_stream ext (.fail e) ld
      = .error (valueError ("CAD_LOAD_ERROR: " ++ strToLower (stripDots ext)
          ++ " (" ++ e.msg ++ ")")) := by
  simp only [analyze_stream, loadMesh, hext, if_true, valueError, hm]

/-- A gmsh-step failure on a CAD extension without the multi-body marker is
further wrapped into `FILE_CORRUPT: CAD_LOAD_ERROR: …` by the outer
handler. -/
theorem analyze_cad_fail_wrapped {ext : String} {ld : LoadResult} {e : PyErr}
    (hext : cadExts.contains (strToLower (stripDots ext)) = true)
    (hm : strContains ("CAD_LOAD_ERROR: " ++ strToLower (stripDots ext)
        ++ " (" ++ e.msg ++ ")") "MULTI_BODY_ERROR" = false) :
    analyze_stream ext (.fail e) ld
      = .error (valueError ("FILE_CORRUPT: " ++ ("CAD_LOAD_ERROR: "
          ++ strToLower (stripDots ext) ++ " (" ++ e.msg ++ ")"))) := by
  simp only [analyze_stream, loadMesh, hext, if_true, valueError, hm,
    Bool.false_eq_true, if_false]

/-- An empty gmsh element list raises `GMSH_TESSELLATION_FAILED`, wrapped as
a `CAD_LOAD_ERROR` variant and then into `FILE_CORRUPT: …` by the outer
handler. -/
theorem analyze_cad_noElements {ext : String} {ld : LoadResult}
    (hext : cadExts.contains (strToLower (stripDots ext)) = true)
    (hm : strContains ("CAD_LOAD_ERROR: " ++ strToLower (stripDots ext)
        ++ " (GMSH_TESSELLATION_FAILED)") "MULTI_BODY_ERROR" = false) :
    analyze_stream ext .noElements ld
      = .error (valueError ("FILE_CORRUPT: " ++ ("CAD_LOAD_ERROR: "
          ++ strToLower (stripDots ext) ++ " (GMSH_TESSELLATION_FAILED)"))) := by
  simp only [analyze_stream, loadMesh, hext, if_true, valueError, hm,
    Bool.false_eq_true, if_false]

theorem valueError_msg (m : String) : (valueError m).msg = m := rfl

theorem valueError_isVE (m : String) : (valueError m).isValueError = true := rfl

/-- `except`-handler evaluation for a `ValueError`. -/
theorem handleError_vError (env : FileUploadedEvent) (e : PyErr)
    (hv : e.isValueError = true) :
    handleError (some env) e
      = .done [.failure env.correlation_id
          (pyOrStr env.message.file_id env.message.upload_id)
          (classifyValueError e.msg) e.msg] := by
  simp only [handleError, hv, if_true]

/-- `except`-handler evaluation for a non-`ValueError`: `SYSTEM_ERROR`. -/
theorem handleError_other (env : FileUploadedEvent) (e : PyErr)
    (hv : e.isValueError = false) :
    handleError (some env) e
      = .done [.failure env.correlation_id
          (pyOrStr env.message.file_id env.message.upload_id)
          "SYSTEM_ERROR" e.msg] := by
  simp only [handleError, hv, Bool.false_eq_true, if_false]

/-- For a CAD extension string free of `'M'`/`'S'` and a cause free of the
two classifier markers, the wrapped `CAD_LOAD_ERROR` message carries no
multi-body marker, and the doubly wrapped `FILE_CORRUPT: …` message is
classified as `FILE_CORRUPT`. -/
theorem cad_wrapped_classify (extS cause : String)
    (hMext : 'M' ∉ extS.data) (hSext : 'S' ∉ extS.data)
    (hmM : strContains cause "MULTI_BODY_ERROR" = false)
    (hmS : strContains cause "SIZE_LIMIT_EXCEEDED" = false) :
    strContains ("CAD_LOAD_ERROR: " ++ extS ++ " (" ++ cause ++ ")")
        "MULTI_BODY_ERROR" = false ∧
    classifyValueError ("FILE_CORRUPT: " ++ ("CAD_LOAD_ERROR: " ++ extS
        ++ " (" ++ cause ++ ")")) = "FILE_CORRUPT" := by
  have hq : (")" : String).data = [')'] := rfl
  have hpatM : ("MULTI_BODY_ERROR" : String).data
      = 'M' :: ("ULTI_BODY_ERROR" : String).data := rfl
  have hpatS : ("SIZE_LIMIT_EXCEEDED" : String).data
      = 'S' :: ("IZE_LIMIT_EXCEEDED" : String).data := rfl
  have hrevM : ('M' :: ("ULTI_BODY_ERROR" : String).data).reverse
      = 'R' :: ("ORRE_YDOB_ITLUM" : String).data := by decide
  have hrevS : ('S' :: ("IZE_LIMIT_EXCEEDED" : String).data).reverse
      = 'D' :: ("EDEECXE_TIMIL_EZIS" : String).data := by decide
  have h0M : ¬ ('M' :: ("ULTI_BODY_ERROR" : String).data) <:+: cause.data :=
    hpatM ▸ strContains_false_iff.mp hmM
  have h0S : ¬ ('S' :: ("IZE_LIMIT_EXCEEDED" : String).data) <:+: cause.data :=
    hpatS ▸ strContains_false_iff.mp hmS
  have hinner : strContains ("CAD_LOAD_ERROR: " ++ extS ++ " (" ++ cause ++ ")")
      "MULTI_BODY_ERROR" = false := by
    rw [strContains_false_iff, hpatM]
    have hch := not_infix_concat hrevM
      [("CAD_LOAD_ERROR: " : String).data, extS.data, (" (" : String).data]
      cause.data ')'
      (by
        intro p hp
        simp only [List.mem_cons, List.not_mem_nil, or_false] at hp
        rcases hp with rfl | rfl | rfl
        · decide
        · exact hMext
        · decide)
      (by decide) h0M
    simp only [List.foldr_cons, List.foldr_nil] at hch
    intro hcon
    exact hch (by simpa [string_data_append, hq, List.append_assoc] using hcon)
  have houterM : strContains ("FILE_CORRUPT: " ++ ("CAD_LOAD_ERROR: " ++ extS
      ++ " (" ++ cause ++ ")")) "MULTI_BODY_ERROR" = false := by
    rw [strContains_false_iff, hpatM]
    have hch := not_infix_concat hrevM
      [("FILE_CORRUPT: " : String).data, ("CAD_LOAD_ERROR: " : String).data,
        extS.data, (" (" : String).data]
      cause.data ')'
      (by
        intro p hp
        simp only [List.mem_cons, List.not_mem_nil, or_false] at hp
        rcases hp with rfl | rfl | rfl | rfl
        · decide
        · decide
        · exact hMext
        · decide)
      (by decide) h0M
    simp only [List.foldr_cons, List.foldr_nil] at hch
    intro hcon
    exact hch (by simpa [string_data_append, hq, List.append_assoc] using hcon)
  have houterS : strContains ("FILE_CORRUPT: " ++ ("CAD_LOAD_ERROR: " ++ extS
      ++ " (" ++ cause ++ ")")) "SIZE_LIMIT_EXCEEDED" = false := by
    rw [strContains_false_iff, hpatS]
    have hch := not_infix_concat hrevS
      [("FILE_CORRUPT: " : String).data, ("CAD_LOAD_ERROR: " : String).data,
        extS.data, (" (" : String).data]
      cause.data ')'
      (by
        intro p hp
        simp only [List.mem_cons, List.not_mem_nil, or_false] at hp
        rcases hp with rfl | rfl | rfl | rfl
        · decide
        · decide
        · exact hSext
        · decide)
      (by decide) h0S
    simp only [List.foldr_cons, List.foldr_nil] at hch
    intro hcon
    exact hch (by simpa [string_data_append, hq, List.append_assoc] using hcon)
  exact ⟨hinner, by simp only [classifyValueError, houterM, houterS,
    Bool.false_eq_true, if_false]⟩

/-- Same as `cad_wrapped_classify` for the `GMSH_TESSELLATION_FAILED` cause,
whose tail is a single literal in `loadMesh`. -/
theorem cad_noelem_classify (extS : String)
    (hMext : 'M' ∉ extS.data) (hSext : 'S' ∉ extS.data) :
    strContains ("CAD_LOAD_ERROR: " ++ extS ++ " (GMSH_TESSELLATION_FAILED)")
        "MULTI_BODY_ERROR" = false ∧
    classifyValueError ("FILE_CORRUPT: " ++ ("CAD_LOAD_ERROR: " ++ extS
        ++ " (GMSH_TESSELLATION_FAILED)")) = "FILE_CORRUPT" := by
  have hsplit : (" (GMSH_TESSELLATION_FAILED)" : String).data
      = (" (GMSH_TESSELLATION_FAILED" : String).data ++ [')'] := by decide
  have hpatM : ("MULTI_BODY_ERROR" : String).data
      = 'M' :: ("ULTI_BODY_ERROR" : String).data := rfl
  have hpatS : ("SIZE_LIMIT_EXCEEDED" : String).data
      = 'S' :: ("IZE_LIMIT_EXCEEDED" : String).data := rfl
  have hrevM : ('M' :: ("ULTI_BODY_ERROR" : String).data).reverse
      = 'R' :: ("ORRE_YDOB_ITLUM" : String).data := by decide
  have hrevS : ('S' :: ("IZE_LIMIT_EXCEEDED" : String).data).reverse
      = 'D' :: ("EDEECXE_TIMIL_EZIS" : String).data := by decide
  have h0M : ¬ ('M' :: ("ULTI_BODY_ERROR" : String).data)
      <:+: (" (GMSH_TESSELLATION_FAILED" : String).data := by decide
  have h0S : ¬ ('S' :: ("IZE_LIMIT_EXCEEDED" : String).data)
      <:+: (" (GMSH_TESSELLATION_FAILED" : String).data := by decide
  have hinner : strContains ("CAD_LOAD_ERROR: " ++ extS
      ++ " (GMSH_TESSELLATION_FAILED)") "MULTI_BODY_ERROR" = false := by
    rw [strContains_false_iff, hpatM]
    have hch := not_infix_concat hrevM
      [("CAD_LOAD_ERROR: " : String).data, extS.data]
      (" (GMSH_TESSELLATION_FAILED" : String).data ')'
      (by
        intro p hp
        simp only [List.mem_cons, List.not_mem_nil, or_false] at hp
        rcases hp with rfl | rfl
        · decide
        · exact hMext)
      (by decide) h0M
    simp only [List.foldr_cons, List.foldr_nil] at hch
    intro hcon
    exact hch (by simpa [string_data_append, hsplit, List.append_assoc] using hcon)
  have houterM : strContains ("FILE_CORRUPT: " ++ ("CAD_LOAD_ERROR: " ++ extS
      ++ " (GMSH_TESSELLATION_FAILED)")) "MULTI_BODY_ERROR" = false := by
    rw [strContains_false_iff, hpatM]
    have hch := not_infix_concat hrevM
      [("FILE_CORRUPT: " : String).data, ("CAD_LOAD_ERROR: " : String).data,
        extS.data]
      (" (GMSH_TESSELLATION_FAILED" : String).data ')'
      (by
        intro p hp
        simp only [List.mem_cons, List.not_mem_nil, or_false] at hp
        rcases hp with rfl | rfl | rfl
        · decide
        · decide
        · exact hMext)
      (by decide) h0M
    simp only [List.foldr_cons, List.foldr_nil] at hch
    intro hcon
    exact hch (by simpa [string_data_append, hsplit, List.append_assoc] using hcon)
  have houterS : strContains ("FILE_CORRUPT: " ++ ("CAD_LOAD_ERROR: " ++ extS
      ++ " (GMSH_TESSELLATION_FAILED)")) "SIZE_LIMIT_EXCEEDED" = false := by
    rw [strContains_false_iff, hpatS]
    have hch := not_infix_concat hrevS
      [("FILE_CORRUPT: " : String).data, ("CAD_LOAD_ERROR: " : String).data,
        extS.data]
      (" (GMSH_TESSELLATION_FAILED" : String).data ')'
      (by
        intro p hp
        simp only [List.mem_cons, List.not_mem_nil, or_false] at hp
        rcases hp with rfl | rfl | rfl
        · decide
        · decide
        · exact hSext)
      (by decide) h0S
    simp only [List.foldr_cons, List.foldr_nil] at hch
    intro hcon
    exact hch (by simpa [string_data_append, hsplit, List.append_assoc] using hcon)
  exact ⟨hinner, by simp only [classifyValueError, houterM, houterS,
    Bool.false_eq_true, if_false]⟩

/-! ### Claim theorems -/

/-- C1 (code-bug exhibit): for an inbound message whose body is not valid
JSON, or is JSON but not a valid envelope, `process_message` publishes **no**
outbound event and an `UnboundLocalError` escapes the handler (both `except`
branches dereference the local `event`, which parsing never bound),
contradicting the claim that exactly one failure event is published and
nothing escapes. -/
theorem C1_invalid_body_escapes_without_event :
    process_message 200 .invalidJson (fun _ => .fail ⟨false, "unused"⟩)
      = .escaped [] unboundLocalError ∧
    process_message 200 .invalidEnvelope (fun _ => .fail ⟨false, "unused"⟩)
      = .escaped [] unboundLocalError :=
  ⟨rfl, rfl⟩

/-- C2 (code-bug exhibit): a valid envelope with no `downloadUrl` makes the
`try` block raise `ValueError("MISSING_DOWNLOAD_URL")`, but the `except
ValueError` classifier has no branch for that code and normalises it to
`FILE_CORRUPT`: the published failure event's `errorCode` is `FILE_CORRUPT`,
not `MISSING_DOWNLOAD_URL` (which only survives in `details`). -/
theorem C2_missing_url_published_as_file_corrupt :
    process_message 200 (.valid envNoUrl) (fun _ => .fail ⟨false, "unused"⟩)
      = .done [.failure (some "corr-2") "u-2" "FILE_CORRUPT" "MISSING_DOWNLOAD_URL"] ∧
    ("FILE_CORRUPT" : String) ≠ "MISSING_DOWNLOAD_URL" :=
  ⟨by decide, by decide⟩

/-- C3: the fetch is attempted at most 3 times (the outcome depends only on
attempts 0, 1, 2); the backoff before attempt `i+1` is `2^(i+1)` seconds
(sleeps `[2, 4]`), and a third failed attempt re-raises immediately with no
further sleep; failing twice and succeeding on the third attempt yields the
stream (and, within the size limit with a successful analysis, the success
event); failing all three attempts with an unclassified transport error
publishes `SYSTEM_ERROR`. -/
theorem C3_retry_schedule (att att' : ℕ → DlAttempt) (e0 e1 e2 : PyErr)
    (c : FileContent) (cfg : ℕ) (env : FileUploadedEvent) :
    (att 0 = att' 0 → att 1 = att' 1 → att 2 = att' 2 →
      download_with_retry att 3 = download_with_retry att' 3) ∧
    (att 0 = .fail e0 → att 1 = .fail e1 → att 2 = .fail e2 →
      download_with_retry att 3 = (.error e2, [2, 4])) ∧
    (att 0 = .fail e0 → att 1 = .fail e1 → att 2 = .ok c →
      download_with_retry att 3 = (.ok (some c), [2, 4])) ∧
    (att 0 = .fail e0 → att 1 = .fail e1 → att 2 = .ok c →
      pyFalsy env.message.download_url = false →
      ¬ (((c.size_bytes : ℚ) / (1024 * 1024) : ℚ) > (cfg : ℚ)) →
      ∀ metrics,
        analyze_async (strToLower (pathSuffixOf env.message.storage_path))
          c.gmsh c.load = .ok metrics →
        process_message cfg (.valid env) att = .done
          [.success env.correlation_id
            (pyOrStr env.message.file_id env.message.upload_id) metrics]) ∧
    (att 0 = .fail e0 → att 1 = .fail e1 → att 2 = .fail e2 →
      pyFalsy env.message.download_url = false →
      e2.isValueError = false →
      process_message cfg (.valid env) att = .done
        [.failure env.correlation_id
          (pyOrStr env.message.file_id env.message.upload_id)
          "SYSTEM_ERROR" e2.msg]) := by
  refine ⟨?_, ?_, ?_, ?_, ?_⟩
  · intro h0 h1 h2
    simp only [download_with_retry, downloadLoop, h0, h1, h2]
  · intro h0 h1 h2
    norm_num [download_with_retry, downloadLoop, h0, h1, h2]
  · intro h0 h1 h2
    norm_num [download_with_retry, downloadLoop, h0, h1, h2]
  · intro h0 h1 h2 hurl hsize metrics hana
    have hdl : (download_with_retry att 3).1 = .ok (some c) := by
      norm_num [download_with_retry, downloadLoop, h0, h1, h2]
    exact process_ok hurl hdl hsize hana
  · intro h0 h1 h2 hurl hv
    have hdl : (download_with_retry att 3).1 = .error e2 := by
      norm_num [download_with_retry, downloadLoop, h0, h1, h2]
    rw [process_dl_err hurl hdl]
    exact handleError_other env e2 hv

/-- Witness for C3: all-fail, fail-fail-succeed, the success continuation,
and the `SYSTEM_ERROR` outcome, at concrete download behaviours. -/
theorem C3_witness :
    download_with_retry attFail 3 = (.error errConn, [2, 4]) ∧
    download_with_retry (attFFS smallContent) 3 = (.ok (some smallContent), [2, 4]) ∧
    process_message 200 (.valid envStl) (attFFS smallContent)
      = .done [.success (some "corr-1") "f-1" (computeMetrics cubeMesh)] ∧
    process_message 200 (.valid envStl) attFail
      = .done [.failure (some "corr-1") "f-1" "SYSTEM_ERROR" "Connection refused"] := by
  refine ⟨?_, ?_, ?_, ?_⟩
  · exact (C3_retry_schedule attFail attFail errConn errConn errConn
      smallContent 200 envStl).2.1 rfl rfl rfl
  · exact (C3_retry_schedule (attFFS smallContent) (attFFS smallContent)
      errConn errConn errConn smallContent 200 envStl).2.2.1 rfl rfl rfl
  · exact (C3_retry_schedule (attFFS smallContent) (attFFS smallContent)
      errConn errConn errConn smallContent 200 envStl).2.2.2.1 rfl rfl rfl rfl
      (by norm_num [smallContent]) (computeMetrics cubeMesh) rfl
  · exact (C3_retry_schedule attFail attFail errConn errConn errConn
      smallContent 200 envStl).2.2.2.2 rfl rfl rfl rfl rfl

/-- C4: an oversized download (strictly more than `MAX_FILE_SIZE_MB`
megabytes) fails with `SIZE_LIMIT_EXCEEDED`, published verbatim; the outcome
is independent of the stream's geometry content (neither the loader nor the
tessellator is consulted); a download within the limit proceeds to loading
and analysis; and the configured default limit is 200 MB. -/
theorem C4_size_limit_enforcement (cfg : ℕ) (env : FileUploadedEvent)
    (sz : ℕ) (gm gm' : GmshOutcome) (ld ld' : LoadResult)
    (att att' : ℕ → DlAttempt) :
    (att 0 = .ok ⟨sz, gm, ld⟩ →
      pyFalsy env.message.download_url = false →
      ((sz : ℚ) / (1024 * 1024) : ℚ) > (cfg : ℚ) →
      process_message cfg (.valid env) att = .done
        [.failure env.correlation_id
          (pyOrStr env.message.file_id env.message.upload_id)
          "SIZE_LIMIT_EXCEEDED" "SIZE_LIMIT_EXCEEDED"]) ∧
    (att 0 = .ok ⟨sz, gm, ld⟩ → att' 0 = .ok ⟨sz, gm', ld'⟩ →
      pyFalsy env.message.download_url = false →
      ((sz : ℚ) / (1024 * 1024) : ℚ) > (cfg : ℚ) →
      process_message cfg (.valid env) att
        = process_message cfg (.valid env) att') ∧
    (att 0 = .ok ⟨sz, gm, ld⟩ →
      pyFalsy env.message.download_url = false →
      ¬ (((sz : ℚ) / (1024 * 1024) : ℚ) > (cfg : ℚ)) →
      ∀ metrics,
        analyze_async (strToLower (pathSuffixOf env.message.storage_path))
          gm ld = .ok metrics →
        process_message cfg (.valid env) att = .done
          [.success env.correlation_id
            (pyOrStr env.message.file_id env.message.upload_id) metrics]) ∧
    settings.MAX_FILE_SIZE_MB = 200 := by
  have hclass : classifyValueError "SIZE_LIMIT_EXCEEDED" = "SIZE_LIMIT_EXCEEDED" := by
    decide
  refine ⟨?_, ?_, ?_, rfl⟩
  · intro hatt hurl hsize
    have hdl : (download_with_retry att 3).1 = .ok (some ⟨sz, gm, ld⟩) := by
      simp [download_with_retry, downloadLoop, hatt]
    rw [process_size hurl hdl hsize]
    rw [handleError_vError env (valueError "SIZE_LIMIT_EXCEEDED") rfl]
    rw [show (valueError "SIZE_LIMIT_EXCEEDED").msg = "SIZE_LIMIT_EXCEEDED" from rfl,
      hclass]
  · intro hatt hatt' hurl hsize
    have hdl : (download_with_retry att 3).1 = .ok (some ⟨sz, gm, ld⟩) := by
      simp [download_with_retry, downloadLoop, hatt]
    have hdl' : (download_with_retry att' 3).1 = .ok (some ⟨sz, gm', ld'⟩) := by
      simp [download_with_retry, downloadLoop, hatt']
    rw [process_size hurl hdl hsize, process_size hurl hdl' hsize]
  · intro hatt hurl hsize metrics hana
    have hdl : (download_with_retry att 3).1 = .ok (some ⟨sz, gm, ld⟩) := by
      simp [download_with_retry, downloadLoop, hatt]
    exact process_ok hurl hdl hsize hana

/-- Witness for C4: a 300 MiB file is rejected with `SIZE_LIMIT_EXCEEDED`, a
1 KiB file is analyzed, and the default limit is 200. -/
theorem C4_witness :
    process_message 200 (.valid envStl) (attOk bigContent)
      = .done [.failure (some "corr-1") "f-1"
          "SIZE_LIMIT_EXCEEDED" "SIZE_LIMIT_EXCEEDED"] ∧
    process_message 200 (.valid envStl) (attOk smallContent)
      = .done [.success (some "corr-1") "f-1" (computeMetrics cubeMesh)] ∧
    settings.MAX_FILE_SIZE_MB = 200 := by
  refine ⟨?_, ?_, ?_⟩
  · exact (C4_size_limit_enforcement 200 envStl (300 * 1048576) .noElements
      .noElements (.mesh cubeMesh) (.mesh cubeMesh) (attOk bigContent)
      (attOk bigContent)).1 rfl rfl (by norm_num)
  · exact (C4_size_limit_enforcement 200 envStl 1024 .noElements
      .noElements (.mesh cubeMesh) (.mesh cubeMesh) (attOk smallContent)
      (attOk smallContent)).2.2.1 rfl rfl (by norm_num)
      (computeMetrics cubeMesh) rfl
  · exact (C4_size_limit_enforcement 200 envStl 1024 .noElements
      .noElements (.mesh cubeMesh) (.mesh cubeMesh) (attOk smallContent)
      (attOk smallContent)).2.2.2

/-- C5: a multi-body condition surfaces as `MULTI_BODY_ERROR` in the
published failure event wherever it is detected — at the scene check, as a
marker inside a generic `ValueError` from the loader, or deep inside the CAD
exception path (where the message is wrapped into `CAD_LOAD_ERROR: …` but
still re-classified to `MULTI_BODY_ERROR`); any other unexpected failure of
the loading/measuring stage is normalised to `FILE_CORRUPT`. -/
theorem C5_multi_body_always_surfaces (cfg : ℕ) (env : FileUploadedEvent)
    (sz : ℕ) (gm : GmshOutcome) (ld : LoadResult) (att : ℕ → DlAttempt)
    (bodies : List TrimeshData) (e : PyErr) :
    (att 0 = .ok ⟨sz, gm, .scene bodies⟩ →
      pyFalsy env.message.download_url = false →
      ¬ (((sz : ℚ) / (1024 * 1024) : ℚ) > (cfg : ℚ)) →
      cadExts.contains (strToLower (stripDots
        (strToLower (pathSuffixOf env.message.storage_path)))) = false →
      bodies.length > 1 →
      process_message cfg (.valid env) att = .done
        [.failure env.correlation_id
          (pyOrStr env.message.file_id env.message.upload_id)
          "MULTI_BODY_ERROR" "MULTI_BODY_ERROR"]) ∧
    (att 0 = .ok ⟨sz, gm, .raiseErr e⟩ →
      pyFalsy env.message.download_url = false →
      ¬ (((sz : ℚ) / (1024 * 1024) : ℚ) > (cfg : ℚ)) →
      cadExts.contains (strToLower (stripDots
        (strToLower (pathSuffixOf env.message.storage_path)))) = false →
      e.isValueError = true →
      strContains e.msg "MULTI_BODY_ERROR" = true →
      process_message cfg (.valid env) att = .done
        [.failure env.correlation_id
          (pyOrStr env.message.file_id env.message.upload_id)
          "MULTI_BODY_ERROR" e.msg]) ∧
    (att 0 = .ok ⟨sz, .fail e, ld⟩ →
      pyFalsy env.message.download_url = false →
      ¬ (((sz : ℚ) / (1024 * 1024) : ℚ) > (cfg : ℚ)) →
      cadExts.contains (strToLower (stripDots
        (strToLower (pathSuffixOf env.message.storage_path)))) = true →
      strContains e.msg "MULTI_BODY_ERROR" = true →
      process_message cfg (.valid env) att = .done
        [.failure env.correlation_id
          (pyOrStr env.message.file_id env.message.upload_id)
          "MULTI_BODY_ERROR"
          ("CAD_LOAD_ERROR: " ++ strToLower (stripDots
            (strToLower (pathSuffixOf env.message.storage_path)))
            ++ " (" ++ e.msg ++ ")")]) ∧
    (att 0 = .ok ⟨sz, gm, .raiseErr e⟩ →
      pyFalsy env.message.download_url = false →
      ¬ (((sz : ℚ) / (1024 * 1024) : ℚ) > (cfg : ℚ)) →
      cadExts.contains (strToLower (stripDots
        (strToLower (pathSuffixOf env.message.storage_path)))) = false →
      strContains e.msg "MULTI_BODY_ERROR" = false →
      strContains e.msg "SIZE_LIMIT_EXCEEDED" = false →
      process_message cfg (.valid env) att = .done
        [.failure env.correlation_id
          (pyOrStr env.message.file_id env.message.upload_id)
          "FILE_CORRUPT" ("FILE_CORRUPT: " ++ e.msg)]) := by
  refine ⟨?_, ?_, ?_, ?_⟩
  · intro hatt hurl hsize hext hlen
    have hdl : (download_with_retry att 3).1 = .ok (some ⟨sz, gm, .scene bodies⟩) := by
      simp [download_with_retry, downloadLoop, hatt]
    rw [process_ana_err hurl hdl hsize (analyze_scene_multi hext hlen),
      handleError_vError env _ rfl, valueError_msg]
    have hclass : classifyValueError "MULTI_BODY_ERROR" = "MULTI_BODY_ERROR" := by
      decide
    rw [hclass]
  · intro hatt hurl hsize hext hv hm
    have hdl : (download_with_retry att 3).1 = .ok (some ⟨sz, gm, .raiseErr e⟩) := by
      simp [download_with_retry, downloadLoop, hatt]
    rw [process_ana_err hurl hdl hsize (analyze_raise_preserved hext hm),
      handleError_vError env e hv]
    have hclass : classifyValueError e.msg = "MULTI_BODY_ERROR" := by
      simp only [classifyValueError, hm, if_true]
    rw [hclass]
  · intro hatt hurl hsize hext hm
    have hdl : (download_with_retry att 3).1 = .ok (some ⟨sz, .fail e, ld⟩) := by
      simp [download_with_retry, downloadLoop, hatt]
    have hq : (")" : String).data = [')'] := rfl
    have hm' : strContains ("CAD_LOAD_ERROR: " ++ strToLower (stripDots
        (strToLower (pathSuffixOf env.message.storage_path)))
        ++ " (" ++ e.msg ++ ")") "MULTI_BODY_ERROR" = true := by
      rw [strContains_true_iff]
      have h0 : ("MULTI_BODY_ERROR" : String).data <:+: e.msg.data :=
        strContains_true_iff.mp hm
      have h1 := infix_extend (("CAD_LOAD_ERROR: " ++ strToLower (stripDots
        (strToLower (pathSuffixOf env.message.storage_path))) ++ " (").data)
        [')'] h0
      simpa [string_data_append, hq, List.append_assoc] using h1
    rw [process_ana_err hurl hdl hsize (analyze_cad_fail_preserved hext hm'),
      handleError_vError env _ rfl, valueError_msg]
    have hclass : classifyValueError ("CAD_LOAD_ERROR: " ++ strToLower (stripDots
        (strToLower (pathSuffixOf env.message.storage_path)))
        ++ " (" ++ e.msg ++ ")") = "MULTI_BODY_ERROR" := by
      simp only [classifyValueError, hm', if_true]
    rw [hclass]
  · intro hatt hurl hsize hext hmM hmS
    have hdl : (download_with_retry att 3).1 = .ok (some ⟨sz, gm, .raiseErr e⟩) := by
      simp [download_with_retry, downloadLoop, hatt]
    rw [process_ana_err hurl hdl hsize (analyze_raise_wrapped hext hmM),
      handleError_vError env _ rfl, valueError_msg]
    have hpatM : ("MULTI_BODY_ERROR" : String).data
        = 'M' :: ("ULTI_BODY_ERROR" : String).data := rfl
    have hpatS : ("SIZE_LIMIT_EXCEEDED" : String).data
        = 'S' :: ("IZE_LIMIT_EXCEEDED" : String).data := rfl
    have hM : strContains ("FILE_CORRUPT: " ++ e.msg) "MULTI_BODY_ERROR" = false := by
      rw [strContains_false_iff, string_data_append, hpatM]
      exact not_infix_append _ _ (by decide)
        (hpatM ▸ strContains_false_iff.mp hmM)
    have hS : strContains ("FILE_CORRUPT: " ++ e.msg) "SIZE_LIMIT_EXCEEDED" = false := by
      rw [strContains_false_iff, string_data_append, hpatS]
      exact not_infix_append _ _ (by decide)
        (hpatS ▸ strContains_false_iff.mp hmS)
    have hclass : classifyValueError ("FILE_CORRUPT: " ++ e.msg) = "FILE_CORRUPT" := by
      simp only [classifyValueError, hM, hS, Bool.false_eq_true, if_false]
    rw [hclass]

/-- Witness for C5 at concrete inputs for all four detection routes. -/
theorem C5_witness :
    process_message 200 (.valid envStl)
        (attOk ⟨1024, .noElements, .scene [cubeMesh, brokenMesh]⟩)
      = .done [.failure (some "corr-1") "f-1" "MULTI_BODY_ERROR" "MULTI_BODY_ERROR"] ∧
    process_message 200 (.valid envStl)
        (attOk ⟨1024, .noElements, .raiseErr ⟨true, "helper saw MULTI_BODY_ERROR"⟩⟩)
      = .done [.failure (some "corr-1") "f-1" "MULTI_BODY_ERROR"
          "helper saw MULTI_BODY_ERROR"] ∧
    process_message 200 (.valid envStep)
        (attOk ⟨1024, .fail ⟨false, "deep MULTI_BODY_ERROR cause"⟩, .notMesh⟩)
      = .done [.failure (some "corr-1") "f-1" "MULTI_BODY_ERROR"
          "CAD_LOAD_ERROR: step (deep MULTI_BODY_ERROR cause)"] ∧
    process_message 200 (.valid envStl)
        (attOk ⟨1024, .noElements, .raiseErr ⟨false, "numpy exploded"⟩⟩)
      = .done [.failure (some "corr-1") "f-1" "FILE_CORRUPT"
          "FILE_CORRUPT: numpy exploded"] := by
  refine ⟨?_, ?_, ?_, ?_⟩
  · exact (C5_multi_body_always_surfaces 200 envStl 1024 .noElements .notMesh
      (attOk ⟨1024, .noElements, .scene [cubeMesh, brokenMesh]⟩)
      [cubeMesh, brokenMesh] errConn).1 rfl rfl (by norm_num) (by decide) (by decide)
  · exact (C5_multi_body_always_surfaces 200 envStl 1024 .noElements .notMesh
      (attOk ⟨1024, .noElements, .raiseErr ⟨true, "helper saw MULTI_BODY_ERROR"⟩⟩)
      [] ⟨true, "helper saw MULTI_BODY_ERROR"⟩).2.1 rfl rfl (by norm_num)
      (by decide) rfl (by decide)
  · exact (C5_multi_body_always_surfaces 200 envStep 1024 .noElements .notMesh
      (attOk ⟨1024, .fail ⟨false, "deep MULTI_BODY_ERROR cause"⟩, .notMesh⟩)
      [] ⟨false, "deep MULTI_BODY_ERROR cause"⟩).2.2.1 rfl rfl (by norm_num)
      (by decide) (by decide)
  · exact (C5_multi_body_always_surfaces 200 envStl 1024 .noElements .notMesh
      (attOk ⟨1024, .noElements, .raiseErr ⟨false, "numpy exploded"⟩⟩)
      [] ⟨false, "numpy exploded"⟩).2.2.2 rfl rfl (by norm_num)
      (by decide) (by decide) (by decide)

/-- C6 counterexample: a STEP input whose tessellation step fails is
published with `errorCode = "FILE_CORRUPT"`, not `CAD_LOAD_ERROR` — the
internal `CAD_LOAD_ERROR: step (…)` code survives only inside `details`,
refuting "these codes are surfaced verbatim in the published failure event's
errorCode field". -/
theorem C6_counterexample :
    process_message 200 (.valid envStep)
        (attOk ⟨1024, .fail ⟨false, "gmsh error"⟩, .notMesh⟩)
      = .done [.failure (some "corr-1") "f-1" "FILE_CORRUPT"
          "FILE_CORRUPT: CAD_LOAD_ERROR: step (gmsh error)"] ∧
    ("FILE_CORRUPT" : String) ≠ "CAD_LOAD_ERROR: step (gmsh error)" := by
  constructor
  · have h := @process_ana_err 200 envStep
      (attOk ⟨1024, .fail ⟨false, "gmsh error"⟩, .notMesh⟩)
      ⟨1024, .fail ⟨false, "gmsh error"⟩, .notMesh⟩
      (valueError "FILE_CORRUPT: CAD_LOAD_ERROR: step (gmsh error)")
      rfl rfl (by norm_num) rfl
    rw [h]
    decide
  · decide

/-- C6 (amended): a tessellation-step failure on a CAD extension raises
`CAD_LOAD_ERROR` carrying the format and cause, and an empty element list
raises `GMSH_TESSELLATION_FAILED` wrapped as a `CAD_LOAD_ERROR` variant —
but the published failure event carries `errorCode = "FILE_CORRUPT"`, with
those codes preserved only in `details`. -/
theorem C6_cad_failures_normalized (cfg : ℕ) (env : FileUploadedEvent)
    (sz : ℕ) (ld : LoadResult) (att : ℕ → DlAttempt) (e : PyErr)
    (ext : String) :
    (cadExts.contains ext = true →
      loadMesh ext (.fail e) ld
        = .error (valueError ("CAD_LOAD_ERROR: " ++ ext ++ " (" ++ e.msg ++ ")"))) ∧
    (cadExts.contains ext = true →
      loadMesh ext .noElements ld
        = .error (valueError
            ("CAD_LOAD_ERROR: " ++ ext ++ " (GMSH_TESSELLATION_FAILED)"))) ∧
    (att 0 = .ok ⟨sz, .fail e, ld⟩ →
      pyFalsy env.message.download_url = false →
      ¬ (((sz : ℚ) / (1024 * 1024) : ℚ) > (cfg : ℚ)) →
      (strToLower (stripDots (strToLower (pathSuffixOf env.message.storage_path))) = "igs"
        ∨ strToLower (stripDots (strToLower (pathSuffixOf env.message.storage_path))) = "iges"
        ∨ strToLower (stripDots (strToLower (pathSuffixOf env.message.storage_path))) = "step"
        ∨ strToLower (stripDots (strToLower (pathSuffixOf env.message.storage_path))) = "stp") →
      strContains e.msg "MULTI_BODY_ERROR" = false →
      strContains e.msg "SIZE_LIMIT_EXCEEDED" = false →
      process_message cfg (.valid env) att = .done
        [.failure env.correlation_id
          (pyOrStr env.message.file_id env.message.upload_id)
          "FILE_CORRUPT"
          ("FILE_CORRUPT: " ++ ("CAD_LOAD_ERROR: "
            ++ strToLower (stripDots (strToLower (pathSuffixOf env.message.storage_path)))
            ++ " (" ++ e.msg ++ ")"))]) ∧
    (att 0 = .ok ⟨sz, .noElements, ld⟩ →
      pyFalsy env.message.download_url = false →
      ¬ (((sz : ℚ) / (1024 * 1024) : ℚ) > (cfg : ℚ)) →
      (strToLower (stripDots (strToLower (pathSuffixOf env.message.storage_path))) = "igs"
        ∨ strToLower (stripDots (strToLower (pathSuffixOf env.message.storage_path))) = "iges"
        ∨ strToLower (stripDots (strToLower (pathSuffixOf env.message.storage_path))) = "step"
        ∨ strToLower (stripDots (strToLower (pathSuffixOf env.message.storage_path))) = "stp") →
      process_message cfg (.valid env) att = .done
        [.failure env.correlation_id
          (pyOrStr env.message.file_id env.message.upload_id)
          "FILE_CORRUPT"
          ("FILE_CORRUPT: " ++ ("CAD_LOAD_ERROR: "
            ++ strToLower (stripDots (strToLower (pathSuffixOf env.message.storage_path)))
            ++ " (GMSH_TESSELLATION_FAILED)"))]) := by
  refine ⟨?_, ?_, ?_, ?_⟩
  · intro h
    simp only [loadMesh, h, if_true]
  · intro h
    simp only [loadMesh, h, if_true]
  · intro hatt hurl hsize hext4 hmM hmS
    have hdl : (download_with_retry att 3).1 = .ok (some ⟨sz, .fail e, ld⟩) := by
      simp [download_with_retry, downloadLoop, hatt]
    have hcadT : cadExts.contains (strToLower (stripDots
        (strToLower (pathSuffixOf env.message.storage_path)))) = true := by
      rcases hext4 with h | h | h | h <;> rw [h] <;> decide
    have hMext : 'M' ∉ (strToLower (stripDots
        (strToLower (pathSuffixOf env.message.storage_path)))).data := by
      rcases hext4 with h | h | h | h <;> rw [h] <;> decide
    have hSext : 'S' ∉ (strToLower (stripDots
        (strToLower (pathSuffixOf env.message.storage_path)))).data := by
      rcases hext4 with h | h | h | h <;> rw [h] <;> decide
    have hcc := cad_wrapped_classify (strToLower (stripDots
      (strToLower (pathSuffixOf env.message.storage_path)))) e.msg
      hMext hSext hmM hmS
    rw [process_ana_err hurl hdl hsize (analyze_cad_fail_wrapped hcadT hcc.1),
      handleError_vError env _ rfl, valueError_msg, hcc.2]
  · intro hatt hurl hsize hext4
    have hdl : (download_with_retry att 3).1 = .ok (some ⟨sz, .noElements, ld⟩) := by
      simp [download_with_retry, downloadLoop, hatt]
    have hcadT : cadExts.contains (strToLower (stripDots
        (strToLower (pathSuffixOf env.message.storage_path)))) = true := by
      rcases hext4 with h | h | h | h <;> rw [h] <;> decide
    have hMext : 'M' ∉ (strToLower (stripDots
        (strToLower (pathSuffixOf env.message.storage_path)))).data := by
      rcases hext4 with h | h | h | h <;> rw [h] <;> decide
    have hSext : 'S' ∉ (strToLower (stripDots
        (strToLower (pathSuffixOf env.message.storage_path)))).data := by
      rcases hext4 with h | h | h | h <;> rw [h] <;> decide
    have hcc := cad_noelem_classify (strToLower (stripDots
      (strToLower (pathSuffixOf env.message.storage_path)))) hMext hSext
    rw [process_ana_err hurl hdl hsize (analyze_cad_noElements hcadT hcc.1),
      handleError_vError env _ rfl, valueError_msg, hcc.2]

/-- Witness for C6 at concrete CAD inputs: the internal `CAD_LOAD_ERROR`
raises, and both published outcomes. -/
theorem C6_witness :
    loadMesh "step" (.fail errConn) .notMesh
      = .error (valueError "CAD_LOAD_ERROR: step (Connection refused)") ∧
    loadMesh "igs" .noElements .notMesh
      = .error (valueError "CAD_LOAD_ERROR: igs (GMSH_TESSELLATION_FAILED)") ∧
    process_message 200 (.valid envStep)
        (attOk ⟨1024, .fail ⟨false, "gmsh open failed"⟩, .notMesh⟩)
      = .done [.failure (some "corr-1") "f-1" "FILE_CORRUPT"
          "FILE_CORRUPT: CAD_LOAD_ERROR: step (gmsh open failed)"] ∧
    process_message 200 (.valid envStep) (attOk ⟨1024, .noElements, .notMesh⟩)
      = .done [.failure (some "corr-1") "f-1" "FILE_CORRUPT"
          "FILE_CORRUPT: CAD_LOAD_ERROR: step (GMSH_TESSELLATION_FAILED)"] := by
  refine ⟨?_, ?_, ?_, ?_⟩
  · exact (C6_cad_failures_normalized 200 envStep 1024 .notMesh
      (attOk ⟨1024, .fail errConn, .notMesh⟩) errConn "step").1 rfl
  · exact (C6_cad_failures_normalized 200 envStep 1024 .notMesh
      (attOk ⟨1024, .noElements, .notMesh⟩) errConn "igs").2.1 rfl
  · exact (C6_cad_failures_normalized 200 envStep 1024 .notMesh
      (attOk ⟨1024, .fail ⟨false, "gmsh open failed"⟩, .notMesh⟩)
      ⟨false, "gmsh open failed"⟩ "step").2.2.1 rfl rfl (by norm_num)
      (Or.inr (Or.inr (Or.inl (by decide)))) (by decide) (by decide)
  · exact (C6_cad_failures_normalized 200 envStep 1024 .notMesh
      (attOk ⟨1024, .noElements, .notMesh⟩) errConn "stp").2.2.2 rfl rfl
      (by norm_num) (Or.inr (Or.inr (Or.inl (by decide))))

/-- C7 counterexample: a scene with zero bodies is published with
`errorCode = "FILE_CORRUPT"`, not `EMPTY_FILE_ERROR` — the internal
`EMPTY_FILE_ERROR` code survives only inside `details`, refuting "the request
fails with errorCode EMPTY_FILE_ERROR surfaced verbatim in the published
failure event". -/
theorem C7_counterexample :
    process_message 200 (.valid envStl) (attOk ⟨1024, .noElements, .scene []⟩)
      = .done [.failure (some "corr-1") "f-1" "FILE_CORRUPT"
          "FILE_CORRUPT: EMPTY_FILE_ERROR"] ∧
    ("FILE_CORRUPT" : String) ≠ "EMPTY_FILE_ERROR" := by
  constructor
  · have h := @process_ana_err 200 envStl
      (attOk ⟨1024, .noElements, .scene []⟩) ⟨1024, .noElements, .scene []⟩
      (valueError "FILE_CORRUPT: EMPTY_FILE_ERROR")
      rfl rfl (by norm_num) rfl
    rw [h]
    decide
  · decide

/-- C7 (amended): a parsed scene with zero bodies is rejected with
`EMPTY_FILE_ERROR` internally, but the published failure event carries
`errorCode = "FILE_CORRUPT"` (with `EMPTY_FILE_ERROR` preserved in
`details`); a scene with multiple disjoint bodies fails with published
`MULTI_BODY_ERROR`; a scene with exactly one body has that body extracted and
analysis proceeds to the success event. -/
theorem C7_scene_body_count (cfg : ℕ) (env : FileUploadedEvent)
    (sz : ℕ) (gm : GmshOutcome) (att : ℕ → DlAttempt)
    (bodies : List TrimeshData) (m : TrimeshData) (ext : String) :
    (cadExts.contains ext = false →
      loadMesh ext gm (.scene []) = .error (valueError "EMPTY_FILE_ERROR")) ∧
    (att 0 = .ok ⟨sz, gm, .scene []⟩ →
      pyFalsy env.message.download_url = false →
      ¬ (((sz : ℚ) / (1024 * 1024) : ℚ) > (cfg : ℚ)) →
      cadExts.contains (strToLower (stripDots
        (strToLower (pathSuffixOf env.message.storage_path)))) = false →
      process_message cfg (.valid env) att = .done
        [.failure env.correlation_id
          (pyOrStr env.message.file_id env.message.upload_id)
          "FILE_CORRUPT" "FILE_CORRUPT: EMPTY_FILE_ERROR"]) ∧
    (att 0 = .ok ⟨sz, gm, .scene bodies⟩ →
      pyFalsy env.message.download_url = false →
      ¬ (((sz : ℚ) / (1024 * 1024) : ℚ) > (cfg : ℚ)) →
      cadExts.contains (strToLower (stripDots
        (strToLower (pathSuffixOf env.message.storage_path)))) = false →
      bodies.length > 1 →
      process_message cfg (.valid env) att = .done
        [.failure env.correlation_id
          (pyOrStr env.message.file_id env.message.upload_id)
          "MULTI_BODY_ERROR" "MULTI_BODY_ERROR"]) ∧
    (att 0 = .ok ⟨sz, gm, .scene [m]⟩ →
      pyFalsy env.message.download_url = false →
      ¬ (((sz : ℚ) / (1024 * 1024) : ℚ) > (cfg : ℚ)) →
      cadExts.contains (strToLower (stripDots
        (strToLower (pathSuffixOf env.message.storage_path)))) = false →
      process_message cfg (.valid env) att = .done
        [.success env.correlation_id
          (pyOrStr env.message.file_id env.message.upload_id)
          (computeMetrics m)]) := by
  refine ⟨?_, ?_, ?_, ?_⟩
  · intro h
    simp only [loadMesh, h, Bool.false_eq_true, if_false]
    norm_num
  · intro hatt hurl hsize hext
    have hdl : (download_with_retry att 3).1 = .ok (some ⟨sz, gm, .scene []⟩) := by
      simp [download_with_retry, downloadLoop, hatt]
    rw [process_ana_err hurl hdl hsize (analyze_scene_empty hext),
      handleError_vError env _ rfl, valueError_msg]
    have hclass : classifyValueError "FILE_CORRUPT: EMPTY_FILE_ERROR"
        = "FILE_CORRUPT" := by decide
    rw [hclass]
  · intro hatt hurl hsize hext hlen
    have hdl : (download_with_retry att 3).1 = .ok (some ⟨sz, gm, .scene bodies⟩) := by
      simp [download_with_retry, downloadLoop, hatt]
    rw [process_ana_err hurl hdl hsize (analyze_scene_multi hext hlen),
      handleError_vError env _ rfl, valueError_msg]
    have hclass : classifyValueError "MULTI_BODY_ERROR" = "MULTI_BODY_ERROR" := by
      decide
    rw [hclass]
  · intro hatt hurl hsize hext
    have hdl : (download_with_retry att 3).1 = .ok (some ⟨sz, gm, .scene [m]⟩) := by
      simp [download_with_retry, downloadLoop, hatt]
    exact process_ok hurl hdl hsize (analyze_scene_single hext)

/-- Witness for C7 at concrete scenes with zero, two and one bodies. -/
theorem C7_witness :
    loadMesh "stl" .noElements (.scene [])
      = .error (valueError "EMPTY_FILE_ERROR") ∧
    process_message 200 (.valid envStl)
        (attOk ⟨2048, .noElements, .scene []⟩)
      = .done [.failure (some "corr-1") "f-1" "FILE_CORRUPT"
          "FILE_CORRUPT: EMPTY_FILE_ERROR"] ∧
    process_message 200 (.valid envStl)
        (attOk ⟨2048, .noElements, .scene [brokenMesh, cubeMesh]⟩)
      = .done [.failure (some "corr-1") "f-1" "MULTI_BODY_ERROR"
          "MULTI_BODY_ERROR"] ∧
    process_message 200 (.valid envStl)
        (attOk ⟨2048, .noElements, .scene [cubeMesh]⟩)
      = .done [.success (some "corr-1") "f-1" (computeMetrics cubeMesh)] := by
  refine ⟨?_, ?_, ?_, ?_⟩
  · exact (C7_scene_body_count 200 envStl 2048 .noElements
      (attOk ⟨2048, .noElements, .scene []⟩) [] cubeMesh "stl").1 (by decide)
  · exact (C7_scene_body_count 200 envStl 2048 .noElements
      (attOk ⟨2048, .noElements, .scene []⟩) [] cubeMesh "stl").2.1 rfl rfl
      (by norm_num) (by decide)
  · exact (C7_scene_body_count 200 envStl 2048 .noElements
      (attOk ⟨2048, .noElements, .scene [brokenMesh, cubeMesh]⟩)
      [brokenMesh, cubeMesh] cubeMesh "stl").2.2.1 rfl rfl (by norm_num)
      (by decide) (by decide)
  · exact (C7_scene_body_count 200 envStl 2048 .noElements
      (attOk ⟨2048, .noElements, .scene [cubeMesh]⟩) [] cubeMesh "stl").2.2.2
      rfl rfl (by norm_num) (by decide)

/-- C8: for every non-watertight mesh the analysis reports
`isManifold = false`; volume and area are taken from the convex hull when it
is available; when hull construction fails, volume is `0.0` and area falls
back to the mesh's raw triangle-area sum; and whenever the hull volume is
nonnegative (as a convex-hull volume is), the reported `volumeCm3` is
nonnegative. -/
theorem C8_non_manifold_uses_hull (m : TrimeshData)
    (h : m.is_watertight = false) :
    (computeMetrics m).is_manifold = false ∧
    (∀ hv ha, m.convex_hull = some (hv, ha) →
      (computeMetrics m).volume_cm3 = hv / 1000 ∧
      (computeMetrics m).surface_area_cm2 = ha / 100) ∧
    (m.convex_hull = none →
      (computeMetrics m).volume_cm3 = 0 ∧
      (computeMetrics m).surface_area_cm2 = m.area / 100) ∧
    ((∀ hv ha, m.convex_hull = some (hv, ha) → 0 ≤ hv) →
      0 ≤ (computeMetrics m).volume_cm3) := by
  rcases hc : m.convex_hull with _ | ⟨hv0, ha0⟩
  · refine ⟨by simp only [computeMetrics, h], ?_, ?_, ?_⟩
    · intro hv ha hsome
      exact absurd hsome (by simp)
    · intro _
      constructor <;> simp [computeMetrics, h, hc]
    · intro _
      have hz : (computeMetrics m).volume_cm3 = 0 := by
        simp [computeMetrics, h, hc]
      rw [hz]
  · refine ⟨by simp only [computeMetrics, h], ?_, ?_, ?_⟩
    · intro hv ha hsome
      simp only [Option.some.injEq, Prod.mk.injEq] at hsome
      rw [← hsome.1, ← hsome.2]
      constructor <;> simp [computeMetrics, h, hc]
    · intro hnone
      exact absurd hnone (by simp)
    · intro hnn
      have h0 : 0 ≤ hv0 := hnn hv0 ha0 rfl
      have hveq : (computeMetrics m).volume_cm3 = hv0 / 1000 := by
        simp [computeMetrics, h, hc]
      rw [hveq]
      exact div_nonneg h0 (by norm_num)

/-- Witness for C8 at two concrete broken meshes (hull available / hull
failed). -/
theorem C8_witness :
    brokenMesh.is_watertight = false ∧
    (computeMetrics brokenMesh).is_manifold = false ∧
    (computeMetrics brokenMesh).volume_cm3 = 42 / 1000 ∧
    0 ≤ (computeMetrics brokenMesh).volume_cm3 ∧
    (computeMetrics brokenMeshNoHull).volume_cm3 = 0 ∧
    (computeMetrics brokenMeshNoHull).surface_area_cm2 = 55 / 100 := by
  have h1 := C8_non_manifold_uses_hull brokenMesh rfl
  have h2 := C8_non_manifold_uses_hull brokenMeshNoHull rfl
  refine ⟨rfl, h1.1, (h1.2.1 42 60 rfl).1, ?_, (h2.2.2.1 rfl).1, (h2.2.2.1 rfl).2⟩
  refine h1.2.2.2 (fun hv ha hsome => ?_)
  have h' : some ((42 : ℚ), (60 : ℚ)) = some (hv, ha) := hsome
  simp only [Option.some.injEq, Prod.mk.injEq] at h'
  rw [← h'.1]
  norm_num

/-- C9: every success event published by `process_message` carries metrics
whose `supportVolumeCm3` equals
`max 0 (bbox_x·bbox_y·bbox_z − volume_mm3) / 1000` expressed over the
reported fields (`volume_mm3 = 1000·volumeCm3`), hence is nonnegative; and a
mesh without extent information is reported with bounding box `(0,0,0)`
(bounding-box volume `0`). -/
theorem C9_support_volume_formula (cfg : ℕ) (env : FileUploadedEvent)
    (att : ℕ → DlAttempt) (evs : List Published)
    (h : process_message cfg (.valid env) att = .done evs)
    (c : Option String) (f : String) (metrics : GeometryMetrics)
    (hmem : Published.success c f metrics ∈ evs) :
    metrics.support_volume_cm3
      = max 0 (metrics.bounding_box.x * metrics.bounding_box.y
          * metrics.bounding_box.z - 1000 * metrics.volume_cm3) / 1000 ∧
    0 ≤ metrics.support_volume_cm3 ∧
    (∀ m : TrimeshData, m.extents = none →
      (computeMetrics m).bounding_box = ⟨0, 0, 0⟩) := by
  have hshape : ∃ m, metrics = computeMetrics m := by
    simp only [process_message] at h
    cases ht : tryBlock cfg env att with
    | ok p =>
        rw [ht] at h
        simp only [HandlerResult.done.injEq] at h
        obtain ⟨m, hm⟩ := tryBlock_ok ht
        rw [← h] at hmem
        simp only [List.mem_singleton] at hmem
        rw [← hmem] at hm
        injection hm with _ _ hmetrics
        exact ⟨m, hmetrics⟩
    | error e =>
        rw [ht] at h
        simp only [handleError] at h
        split at h <;>
          (simp only [HandlerResult.done.injEq] at h
           rw [← h] at hmem
           simp only [List.mem_singleton] at hmem
           exact absurd hmem (by simp))
  obtain ⟨m, hm⟩ := hshape
  subst hm
  exact ⟨computeMetrics_support m, computeMetrics_support_nonneg m,
    fun m' hm' => computeMetrics_no_extents m' hm'⟩

/-- Witness for C9 on a concrete successful run. -/
theorem C9_witness :
    (computeMetrics cubeMesh).support_volume_cm3
      = max 0 ((computeMetrics cubeMesh).bounding_box.x
          * (computeMetrics cubeMesh).bounding_box.y
          * (computeMetrics cubeMesh).bounding_box.z
          - 1000 * (computeMetrics cubeMesh).volume_cm3) / 1000 ∧
    0 ≤ (computeMetrics cubeMesh).support_volume_cm3 := by
  have hproc := @process_ok 200 envStl (attOk smallContent) smallContent
    (computeMetrics cubeMesh) rfl rfl (by norm_num [smallContent]) rfl
  have h := C9_support_volume_formula 200 envStl (attOk smallContent) _ hproc
    (some "corr-1") "f-1" (computeMetrics cubeMesh)
    (List.mem_singleton.mpr rfl)
  exact ⟨h.1, h.2.1⟩

/-- C10: every event `process_message` publishes (success or failure) carries
as `fileId` the inbound `fileId` when present and non-empty, and the inbound
`uploadId` otherwise. -/
theorem C10_file_id_fallback (cfg : ℕ) (env : FileUploadedEvent)
    (att : ℕ → DlAttempt) (evs : List Published)
    (h : process_message cfg (.valid env) att = .done evs) :
    ∀ ev ∈ evs, Published.fileIdOf ev
      = match env.message.file_id with
        | some s => if s = "" then env.message.upload_id else s
        | none => env.message.upload_id := by
  have hpy : (match env.message.file_id with
      | some s => if s = "" then env.message.upload_id else s
      | none => env.message.upload_id)
      = pyOrStr env.message.file_id env.message.upload_id := by
    cases env.message.file_id <;> rfl
  intro ev hmem
  rw [hpy]
  simp only [process_message] at h
  cases ht : tryBlock cfg env att with
  | ok p =>
      rw [ht] at h
      simp only [HandlerResult.done.injEq] at h
      obtain ⟨m, hm⟩ := tryBlock_ok ht
      rw [← h] at hmem
      simp only [List.mem_singleton] at hmem
      rw [hmem, hm]
      rfl
  | error e =>
      rw [ht] at h
      simp only [handleError] at h
      split at h <;>
        (simp only [HandlerResult.done.injEq] at h
         rw [← h] at hmem
         simp only [List.mem_singleton] at hmem
         rw [hmem]
         rfl)

/-- Witness for C10: a request without a `fileId` fails with the `uploadId`
as the outbound `fileId`. -/
theorem C10_witness :
    Published.fileIdOf (Published.failure (some "corr-2") "u-2" "FILE_CORRUPT"
        "MISSING_DOWNLOAD_URL") = "u-2" := by
  have hproc : process_message 200 (.valid envNoUrl) (attOk smallContent)
      = .done [.failure (some "corr-2") "u-2" "FILE_CORRUPT"
          "MISSING_DOWNLOAD_URL"] := by decide
  exact C10_file_id_fallback 200 envNoUrl (attOk smallContent) _ hproc _
    (List.mem_singleton.mpr rfl)

end GeometryService
